import Mathlib

/-!
Verification of the token-lifecycle and session-management core of a Go
Fiber authentication service (dual access/refresh tokens backed by a
persisted session table).

Modelling conventions of the shallow embedding:

* Time is `Nat`, counted in seconds since the epoch.  Go's
  `time.Now().After(t)` is the strict comparison `t < now`.
* The session table (`gorm` rows) is a `List Session` kept in primary-key
  order; `db.First` on a predicate is `List.find?`, `db.Save` rewrites the
  row with the matching `id` in place, `db.Create` appends a fresh row with
  the next surrogate id.
* The fallible external effects of one request (HMAC signing, the secure
  random source, the store's create and save statements) are captured in an
  `Effects` record of outcomes, so every code path of the handlers is a
  total function of its inputs.
* bcrypt (`CheckPasswordHash`) and `net/mail` address validation are opaque
  external primitives; handlers that consume them are parametrised by them,
  and the hash checks a handler performs are returned as an explicit call
  log.
* `gorm.Model` bookkeeping not consumed by the verified code paths
  (`CreatedAt`/`UpdatedAt`/`DeletedAt` of a session) is omitted; the
  surrogate `id` is kept because `Save` keys on it.
-/

/-- Seconds since the epoch. -/
abbrev Time := Nat

/-- Lifespan of an access token: 15 minutes (in seconds). -/
def AccessTokenDuration : Nat := 15 * 60

/-- Lifespan of a refresh token: 7 days (in seconds). -/
def RefreshTokenDuration : Nat := 7 * 24 * 60 * 60

/-- Byte length of the random refresh token material. -/
def RefreshTokenLength : Nat := 64

/-- model.User (gorm.Model surrogate id and timestamps flattened in). -/
structure User where
  id : Nat
  createdAt : Time
  updatedAt : Time
  username : String
  email : String
  password : String
  names : String
deriving Repr, DecidableEq

/-- model.Session: one refresh-token row of the session table. -/
structure Session where
  id : Nat
  userID : Nat
  refreshToken : String
  userAgent : String
  ipAddress : String
  expiresAt : Time
  lastUsedAt : Time
  isRevoked : Bool
deriving Repr, DecidableEq

/-- Session.IsExpired: `time.Now().After(s.ExpiresAt)`. -/
def Session.IsExpired (s : Session) (now : Time) : Bool :=
  s.expiresAt < now

/-- Session.IsValid: not expired and not revoked. -/
def Session.IsValid (s : Session) (now : Time) : Bool :=
  !s.IsExpired now && !s.isRevoked

/-- Session.Revoke's in-memory mutation: set `IsRevoked` to true (the
subsequent `db.Save` is modelled by `saveSession` under `Effects.saveErr`). -/
def Session.Revoke (s : Session) : Session :=
  { s with isRevoked := true }

/-- Session.UpdateLastUsed's in-memory mutation.  The method exists on the
model but is never invoked anywhere in the repository. -/
def Session.UpdateLastUsed (s : Session) (now : Time) : Session :=
  { s with lastUsedAt := now }

/-- The session table, in primary-key order. -/
abbrev SessionDB := List Session

/-- db.Where("refresh_token = ?", tok).First(&session). -/
def findSessionByToken (db : SessionDB) (tok : String) : Option Session :=
  db.find? (fun s => s.refreshToken == tok)

/-- db.Save(s): rewrite the row carrying `s.id` in place. -/
def saveSession (db : SessionDB) (s : Session) : SessionDB :=
  db.map (fun x => if x.id == s.id then s else x)

/-- Next surrogate id handed out by the store. -/
def nextSessionId (db : SessionDB) : Nat :=
  db.foldr (fun s m => max s.id m) 0 + 1

/-- db.Create(s): append the row with a fresh surrogate id. -/
def createSession (db : SessionDB) (s : Session) : SessionDB :=
  db ++ [{ s with id := nextSessionId db }]

/-- db.First(&user, id). -/
def findUserById (users : List User) (id : Nat) : Option User :=
  users.find? (fun u => u.id == id)

/-- Failure of GenerateTokenPair, each wrapping the underlying cause
(`fmt.Errorf("...: %w", err)`). -/
inductive GenError
  | accessTokenFailed (cause : String)
  | refreshTokenFailed (cause : String)
  | storeFailed (cause : String)
deriving Repr, DecidableEq

/-- Errors of ValidateRefreshToken / RotateRefreshToken. -/
inductive TokenError
  | invalidRefreshToken
  | expiredOrRevoked
  | userNotFound
  | revocationFailed (cause : String)
  | generationFailed (cause : GenError)
deriving Repr, DecidableEq

/-- Outcomes of the fallible external effects during one request. -/
structure Effects where
  signedAccessToken : Except String String
  randomRefreshToken : Except String String
  createErr : Option String
  saveErr : Option String
deriving Repr

/-- Effects in which every external step succeeds: the signer returns `a`
and the random source yields the token `r`. -/
def okEffects (a r : String) : Effects :=
  { signedAccessToken := .ok a, randomRefreshToken := .ok r,
    createErr := none, saveErr := none }

/-- Claims of the JWT access token (jwt.MapClaims as written by
GenerateAccessToken). -/
structure AccessClaims where
  user_id : Nat
  username : String
  email : String
  exp : Time
  iat : Time
  type : String
deriving Repr, DecidableEq

/-- GenerateAccessToken: expiry claim is `now + AccessTokenDuration`; fails
when the HMAC signing primitive fails.  Returns the signed string, the
claims written into it and the absolute expiry. -/
def GenerateAccessToken (eff : Effects) (u : User) (now : Time) :
    Except String (String × AccessClaims × Time) :=
  let expiresAt := now + AccessTokenDuration
  let claims : AccessClaims :=
    { user_id := u.id, username := u.username, email := u.email,
      exp := expiresAt, iat := now, type := "access" }
  match eff.signedAccessToken with
  | .error e => .error e
  | .ok tokenString => .ok (tokenString, claims, expiresAt)

/-- TokenPair handed back to the transport layer. -/
structure TokenPair where
  accessToken : String
  refreshToken : String
  expiresIn : Nat
  expiresAt : Time
  tokenType : String
deriving Repr, DecidableEq

/-- The session row GenerateTokenPair builds before `db.Create` assigns its
surrogate id. -/
def newSession (u : User) (refreshTok ua ip : String) (now : Time) : Session :=
  { id := 0, userID := u.id, refreshToken := refreshTok, userAgent := ua,
    ipAddress := ip, expiresAt := now + RefreshTokenDuration,
    lastUsedAt := now, isRevoked := false }

/-- GenerateTokenPair: mint access token, mint refresh token, persist the
session row.  Returns the request's outcome together with the session table
it leaves behind (unchanged on every failure). -/
def GenerateTokenPair (eff : Effects) (db : SessionDB) (u : User)
    (ua ip : String) (now : Time) : Except GenError TokenPair × SessionDB :=
  match GenerateAccessToken eff u now with
  | .error e => (.error (.accessTokenFailed e), db)
  | .ok (accessToken, _claims, expiresAt) =>
    match eff.randomRefreshToken with
    | .error e => (.error (.refreshTokenFailed e), db)
    | .ok refreshTok =>
      match eff.createErr with
      | some e => (.error (.storeFailed e), db)
      | none =>
        (.ok { accessToken := accessToken, refreshToken := refreshTok,
               expiresIn := AccessTokenDuration, expiresAt := expiresAt,
               tokenType := "Bearer" },
         createSession db (newSession u refreshTok ua ip now))

/-- ValidateRefreshToken: look the row up by exact token match, then check
the validity invariant. -/
def ValidateRefreshToken (db : SessionDB) (tok : String) (now : Time) :
    Except TokenError Session :=
  match findSessionByToken db tok with
  | none => .error .invalidRefreshToken
  | some s => if s.IsValid now then .ok s else .error .expiredOrRevoked

/-- RevokeRefreshToken: look the row up by token, mark it revoked, save.
The save statement's outcome is `saveErr`; on any failure the table is
untouched. -/
def RevokeRefreshToken (saveErr : Option String) (db : SessionDB)
    (tok : String) : Except String SessionDB :=
  match findSessionByToken db tok with
  | none => .error "refresh token not found"
  | some s =>
    match saveErr with
    | some e => .error e
    | none => .ok (saveSession db s.Revoke)

/-- RevokeAllUserSessions: bulk update `is_revoked = true` on every
not-yet-revoked row of the user. -/
def RevokeAllUserSessions (db : SessionDB) (userID : Nat) : SessionDB :=
  db.map (fun s =>
    if s.userID == userID && !s.isRevoked then { s with isRevoked := true } else s)

/-- CleanupExpiredSessions: delete every row with `expires_at < now`. -/
def CleanupExpiredSessions (db : SessionDB) (now : Time) : SessionDB :=
  db.filter (fun s => !(s.expiresAt < now : Bool))

/-- RotateRefreshToken: validate the presented token, resolve the owning
user, revoke-and-save the old session, then issue a brand-new pair.
Returns the outcome together with the session table left behind. -/
def RotateRefreshToken (eff : Effects) (users : List User) (db : SessionDB)
    (oldTok ua ip : String) (now : Time) :
    Except TokenError TokenPair × SessionDB :=
  match ValidateRefreshToken db oldTok now with
  | .error e => (.error e, db)
  | .ok session =>
    match findUserById users session.userID with
    | none => (.error .userNotFound, db)
    | some user =>
      match eff.saveErr with
      | some e => (.error (.revocationFailed e), db)
      | none =>
        let db1 := saveSession db session.Revoke
        match GenerateTokenPair eff db1 user ua ip now with
        | (.error e, db2) => (.error (.generationFailed e), db2)
        | (.ok pair, db2) => (.ok pair, db2)

/-- HTTP status the RefreshToken handler answers with: 200 on success, 401
("Invalid or expired refresh token") on any rotation error. -/
def refreshHandlerStatusCode (res : Except TokenError TokenPair × SessionDB) : Nat :=
  match res.fst with
  | .ok _ => 200
  | .error _ => 401

/-- Body of ErrorResponseJSON: `{status: "error", message, errors}`. -/
structure ErrorBody where
  status : String
  message : String
  errorsDetail : Option String
deriving Repr, DecidableEq

/-- UserResponse as serialised by toUserResponse (timestamps carried as raw
seconds; the RFC3339 rendering is injective on them). -/
structure UserResponse where
  id : Nat
  username : String
  email : String
  names : String
  createdAt : Time
  updatedAt : Time
deriving Repr, DecidableEq

/-- toUserResponse. -/
def toUserResponse (u : User) : UserResponse :=
  { id := u.id, username := u.username, email := u.email, names := u.names,
    createdAt := u.createdAt, updatedAt := u.updatedAt }

/-- Data of the Login success payload. -/
structure LoginSuccessData where
  access_token : String
  refresh_token : String
  token_type : String
  expires_in : Nat
  user : UserResponse
deriving Repr, DecidableEq

/-- Wire response of the Login handler: HTTP status code plus body. -/
inductive LoginResponse
  | errorResp (statusCode : Nat) (body : ErrorBody)
  | successResp (statusCode : Nat) (message : String) (data : LoginSuccessData)
deriving Repr, DecidableEq

/-- What one Login request produces: the response, the session table left
behind, and the log of CheckPasswordHash invocations (password, hash). -/
structure LoginOutcome where
  response : LoginResponse
  db : SessionDB
  hashChecks : List (String × String)
deriving Repr, DecidableEq

/-- Lowercase of the whitespace-trimmed input, written at the character
level (the behaviour of `strings.ToLower(strings.TrimSpace(s))` on the
ASCII identities this service handles). -/
def normalizeText (e : String) : String :=
  String.mk
    (((e.data.dropWhile Char.isWhitespace).reverse.dropWhile
        Char.isWhitespace).reverse.map Char.toLower)

/-- NormalizeEmail: lowercase of the trimmed input. -/
def normalizeEmail (e : String) : String :=
  normalizeText e

/-- NormalizeUsername: lowercase of the trimmed input. -/
def normalizeUsername (u : String) : String :=
  normalizeText u

/-- The user-resolution step of Login: normalise the identity, then look it
up by email when it parses as an address (`isEmailAddr` abstracts
net/mail), by username otherwise. -/
def lookupLoginUser (users : List User) (isEmailAddr : String → Bool)
    (identity : String) : Option User :=
  let norm := normalizeEmail identity
  if isEmailAddr norm then users.find? (fun u => u.email == norm)
  else users.find? (fun u => u.username == normalizeUsername norm)

/-- Login handler (after body parsing), parametrised by the bcrypt
comparison `chk` and the address recogniser.  When no user matches, the
dummy hash check `chk pass ""` still runs before the 401. -/
def Login (chk : String → String → Bool) (isEmailAddr : String → Bool)
    (eff : Effects) (users : List User) (db : SessionDB)
    (identity pass ua ip : String) (now : Time) : LoginOutcome :=
  match lookupLoginUser users isEmailAddr identity with
  | none =>
    { response := .errorResp 401
        { status := "error", message := "Invalid credentials", errorsDetail := none },
      db := db, hashChecks := [(pass, "")] }
  | some u =>
    if chk pass u.password then
      match GenerateTokenPair eff db u ua ip now with
      | (.error _, db1) =>
        { response := .errorResp 500
            { status := "error", message := "Failed to generate tokens", errorsDetail := none },
          db := db1, hashChecks := [(pass, u.password)] }
      | (.ok pair, db1) =>
        { response := .successResp 200 "Login successful"
            { access_token := pair.accessToken, refresh_token := pair.refreshToken,
              token_type := pair.tokenType, expires_in := pair.expiresIn,
              user := toUserResponse u },
          db := db1, hashChecks := [(pass, u.password)] }
    else
      { response := .errorResp 401
          { status := "error", message := "Invalid credentials", errorsDetail := none },
        db := db, hashChecks := [(pass, u.password)] }

/-- Body of SuccessResponse together with its HTTP status code. -/
structure ApiMessage where
  statusCode : Nat
  status : String
  message : String
deriving Repr, DecidableEq

/-- Logout handler (after body parsing): revoke the token, and report
success whether or not the revocation found a row or managed to save. -/
def Logout (saveErr : Option String) (db : SessionDB) (tok : String) :
    ApiMessage × SessionDB :=
  match RevokeRefreshToken saveErr db tok with
  | .error _ =>
    ({ statusCode := 200, status := "success", message := "Logged out successfully" }, db)
  | .ok db1 =>
    ({ statusCode := 200, status := "success", message := "Logged out successfully" }, db1)

/-- Value a jwt.MapClaims entry can hold in this app (decoded JSON numbers
arrive as float64; only non-negative integral ones occur here). -/
inductive ClaimValue
  | num (n : Nat)
  | str (s : String)
deriving Repr, DecidableEq

/-- Decoded JWT carried by the middleware. -/
structure JwtToken where
  claims : List (String × ClaimValue)
deriving Repr, DecidableEq

/-- Claim lookup in a decoded token. -/
def lookupClaim (t : JwtToken) (k : String) : Option ClaimValue :=
  (t.claims.find? (fun p => p.fst == k)).map Prod.snd

/-- Request context as GetUserIDFromToken sees it: `c.Locals("user")`
either carries the middleware's decoded token or does not. -/
structure Ctx where
  localsUser : Option JwtToken
deriving Repr, DecidableEq

/-- Runtime crash of an unchecked Go type assertion. -/
inductive PanicKind
  | typeAssertionFailed
deriving Repr, DecidableEq

/-- GetUserIDFromToken: unchecked assertions `c.Locals("user").(*jwt.Token)`
and `claims["user_id"].(float64)` crash (left branch) when the context has
no token or the claim is missing or non-numeric; otherwise the user id is
returned with a `nil` error. -/
def GetUserIDFromToken (c : Ctx) : Except PanicKind (Nat × Option String) :=
  match c.localsUser with
  | none => .error .typeAssertionFailed
  | some t =>
    match lookupClaim t "user_id" with
    | some (.num n) => .ok (n, none)
    | _ => .error .typeAssertionFailed

/-- Responses of the LogoutAll handler. -/
inductive LogoutAllResponse
  | invalidTokenError
  | success
deriving Repr, DecidableEq

/-- LogoutAll handler: 401 "Invalid token" when GetUserIDFromToken reports
an error, else revoke every session of the user. -/
def LogoutAll (c : Ctx) (db : SessionDB) :
    Except PanicKind (LogoutAllResponse × SessionDB) :=
  match GetUserIDFromToken c with
  | .error p => .error p
  | .ok (uid, err) =>
    match err with
    | some _ => .ok (.invalidTokenError, db)
    | none => .ok (.success, RevokeAllUserSessions db uid)

/-!
Concrete fixtures used by the counterexamples and witnesses below.
-/

/-- Session at the exact expiry instant, used to separate the code's
validity check from the spec's strict one. -/
def boundarySession : Session :=
  { id := 1, userID := 1, refreshToken := "tok", userAgent := "ua",
    ipAddress := "ip", expiresAt := 5, lastUsedAt := 0, isRevoked := false }

/-- User and session fixture for the concrete rotation runs below. -/
def cexUser : User :=
  { id := 7, createdAt := 0, updatedAt := 0, username := "bob",
    email := "bob@example.com", password := "stored-hash", names := "Bob" }

/-- Session fixture: owned by cexUser, expires at 1000, last used at 10. -/
def cexSession : Session :=
  { id := 1, userID := 7, refreshToken := "old-token", userAgent := "ua0",
    ipAddress := "ip0", expiresAt := 1000, lastUsedAt := 10, isRevoked := false }

/-- Effects in which both mint steps would succeed but the store's save
statement fails. -/
def badSaveEffects : Effects :=
  { signedAccessToken := .ok "signed", randomRefreshToken := .ok "new-token",
    createErr := none, saveErr := some "disk full" }

/-- User fixture for the concrete login runs. -/
def aliceUser : User :=
  { id := 1, createdAt := 0, updatedAt := 0, username := "alice",
    email := "alice@example.com", password := "stored-bcrypt-hash",
    names := "Alice" }

/-!
Helper lemmas shared by the claim theorems.
-/

/-- A row found for a token carries that token. -/
theorem findSessionByToken_token (db : SessionDB) (tok : String) (s : Session)
    (h : findSessionByToken db tok = some s) : s.refreshToken = tok := by
  unfold findSessionByToken at h
  simpa using List.find?_some h

/-- Revoking keeps the row's key fields. -/
theorem revoke_id (s : Session) : s.Revoke.id = s.id := rfl

/-- Revoking keeps the token value. -/
theorem revoke_refreshToken (s : Session) : s.Revoke.refreshToken = s.refreshToken := rfl

/-- A revoked session is never valid. -/
theorem revoke_not_valid (s : Session) (now : Time) : s.Revoke.IsValid now = false := by
  simp [Session.Revoke, Session.IsValid]

/-- After saving the revoked copy of the row a token lookup found, the
lookup finds the revoked copy. -/
theorem findSessionByToken_saveRevoke (tok : String) (s : Session) :
    ∀ db : SessionDB, findSessionByToken db tok = some s →
      findSessionByToken (saveSession db s.Revoke) tok = some s.Revoke := by
  intro db
  induction db with
  | nil => intro h; simp [findSessionByToken] at h
  | cons x xs ih =>
    intro h
    cases hx : x.refreshToken == tok with
    | true =>
      have hxs : x = s := by
        simp only [findSessionByToken, List.find?_cons, hx, cond_true] at h
        exact Option.some.inj h
      subst hxs
      simp only [findSessionByToken, saveSession, List.map_cons]
      rw [if_pos (by simp [revoke_id])]
      simp only [List.find?_cons, revoke_refreshToken, hx, cond_true]
    | false =>
      have h' : findSessionByToken xs tok = some s := by
        simpa only [findSessionByToken, List.find?_cons, hx, cond_false] using h
      have htail := ih h'
      have htok : s.refreshToken = tok := findSessionByToken_token xs tok s h'
      simp only [findSessionByToken, saveSession, List.map_cons]
      by_cases hid : (x.id == s.Revoke.id) = true
      · rw [if_pos hid]
        simp only [List.find?_cons, revoke_refreshToken, htok, beq_self_eq_true, cond_true]
      · rw [if_neg hid]
        simp only [List.find?_cons, hx, cond_false]
        simpa only [findSessionByToken, saveSession] using htail

/-- A find? hit in the front part survives an append. -/
theorem find?_append_of_some {α : Type} (p : α → Bool) (l2 : List α) :
    ∀ (l1 : List α) (a : α), l1.find? p = some a → (l1 ++ l2).find? p = some a := by
  intro l1
  induction l1 with
  | nil => intro a h; simp [List.find?] at h
  | cons x xs ih =>
    intro a h
    cases hx : p x with
    | true =>
      simp only [List.find?_cons, hx, cond_true] at h
      simp only [List.cons_append, List.find?_cons, hx, cond_true, h]
    | false =>
      simp only [List.find?_cons, hx, cond_false] at h
      simp only [List.cons_append, List.find?_cons, hx, cond_false]
      exact ih a h

/-- ValidateRefreshToken succeeds exactly on a found, valid row. -/
theorem validateRefreshToken_ok_iff (db : SessionDB) (tok : String) (now : Time)
    (s : Session) :
    ValidateRefreshToken db tok now = .ok s ↔
      findSessionByToken db tok = some s ∧ s.IsValid now = true := by
  unfold ValidateRefreshToken
  cases h : findSessionByToken db tok with
  | none => simp
  | some t =>
    dsimp only
    by_cases hv : t.IsValid now = true
    · rw [if_pos hv]
      constructor
      · intro h2
        injection h2 with h3
        subst h3
        exact ⟨rfl, hv⟩
      · rintro ⟨h2, _⟩
        injection h2 with h3
        subst h3
        rfl
    · rw [if_neg hv]
      constructor
      · intro h2
        exact absurd h2 (by simp)
      · rintro ⟨h2, hvalid⟩
        injection h2 with h3
        subst h3
        exact absurd hvalid hv

/-- Setting `isRevoked` on an already-revoked row changes nothing. -/
theorem set_isRevoked_true_self (s : Session) (h : s.isRevoked = true) :
    { s with isRevoked := true } = s := by
  cases s
  simp_all

/-- RevokeAllUserSessions acts as the unconditional bulk update on the
user's rows: already-revoked rows are fixed points either way. -/
theorem revokeAll_eq_map (db : SessionDB) (uid : Nat) :
    RevokeAllUserSessions db uid
      = db.map (fun s => if s.userID == uid then { s with isRevoked := true } else s) := by
  unfold RevokeAllUserSessions
  induction db with
  | nil => rfl
  | cons x xs ih =>
    simp only [List.map_cons, List.cons.injEq]
    refine ⟨?_, ih⟩
    cases h1 : x.userID == uid with
    | true =>
      cases h2 : x.isRevoked with
      | true => simp [h1, h2, set_isRevoked_true_self x h2]
      | false => simp [h1, h2]
    | false => simp [h1]

/-- The exact value RotateRefreshToken computes when the presented token is
valid, the owner exists and every external effect succeeds. -/
theorem rotate_okEffects_eq (users : List User) (db : SessionDB)
    (tok ua ip : String) (now : Time) (s : Session) (u : User) (a r : String)
    (hval : ValidateRefreshToken db tok now = .ok s)
    (huser : findUserById users s.userID = some u) :
    RotateRefreshToken (okEffects a r) users db tok ua ip now
      = (.ok { accessToken := a, refreshToken := r, expiresIn := AccessTokenDuration,
               expiresAt := now + AccessTokenDuration, tokenType := "Bearer" },
         createSession (saveSession db s.Revoke) (newSession u r ua ip now)) := by
  unfold RotateRefreshToken
  rw [hval]
  dsimp only
  rw [huser]
  simp [okEffects, GenerateTokenPair, GenerateAccessToken]

/-- A successful GenerateTokenPair always stamps the pair with the fixed
access-token lifetime and the Bearer label. -/
theorem tokenPair_ok_shape (eff : Effects) (db : SessionDB) (u : User)
    (ua ip : String) (now : Time) (pair : TokenPair) (db2 : SessionDB)
    (h : GenerateTokenPair eff db u ua ip now = (.ok pair, db2)) :
    pair.expiresIn = AccessTokenDuration ∧ pair.tokenType = "Bearer" := by
  unfold GenerateTokenPair GenerateAccessToken at h
  cases ha : eff.signedAccessToken with
  | error e => rw [ha] at h; simp at h
  | ok a =>
    rw [ha] at h
    cases hr : eff.randomRefreshToken with
    | error e => rw [hr] at h; simp at h
    | ok r =>
      rw [hr] at h
      cases hc : eff.createErr with
      | some e => rw [hc] at h; simp at h
      | none =>
        rw [hc] at h
        simp only [Prod.mk.injEq, Except.ok.injEq] at h
        rw [← h.1]
        exact ⟨rfl, rfl⟩

/-- Both branches of the Logout handler answer with the same success
message. -/
theorem logout_fst (e : Option String) (db : SessionDB) (tok : String) :
    (Logout e db tok).fst
      = { statusCode := 200, status := "success", message := "Logged out successfully" } := by
  unfold Logout
  cases RevokeRefreshToken e db tok <;> rfl

/-!
Claim theorems.
-/

/-- Claim C2, counterexample: the spec's invariant says a session is valid
iff `now < expiresAt` and not revoked, but the code's `Session.IsValid`
(built on `time.Now().After`) accepts the boundary instant `now =
expiresAt`: this unrevoked session with `expiresAt = 5` is valid at `now =
5` although `5 < 5` fails, so the claimed iff is false. -/
theorem session_validity_strict_cex :
    boundarySession.IsValid 5 = true ∧
      ¬ (5 < boundarySession.expiresAt ∧ boundarySession.isRevoked = false) := by
  constructor
  · rfl
  · intro hcontra
    exact absurd hcontra.1 (by decide)

/-- Claim C2, amended: a session is valid iff `now ≤ expiresAt` (i.e. the
expiry is not strictly in the past) and it is not revoked; a session with
`expiresAt` in the past fails validation regardless of `isRevoked`; and a
session that fails the code's validity check never yields a token pair:
ValidateRefreshToken only ever returns valid sessions, and a successful
RotateRefreshToken implies the looked-up session was valid. -/
theorem session_validity_amended (s : Session) (now : Time) (db : SessionDB)
    (tok ua ip : String) :
    (s.IsValid now = true ↔ now ≤ s.expiresAt ∧ s.isRevoked = false) ∧
    (s.expiresAt < now → s.IsValid now = false) ∧
    (∀ s2, ValidateRefreshToken db tok now = .ok s2 → s2.IsValid now = true) ∧
    (∀ eff users pair,
      (RotateRefreshToken eff users db tok ua ip now).fst = .ok pair →
      ∃ s2, findSessionByToken db tok = some s2 ∧ s2.IsValid now = true) := by
  refine ⟨?_, ?_, ?_, ?_⟩
  · simp [Session.IsValid, Session.IsExpired, Nat.not_lt, Bool.not_eq_true']
  · intro h
    simp [Session.IsValid, Session.IsExpired, h]
  · intro s2 h
    exact ((validateRefreshToken_ok_iff db tok now s2).mp h).2
  · intro eff users pair h
    unfold RotateRefreshToken at h
    cases hv : ValidateRefreshToken db tok now with
    | error e => rw [hv] at h; simp at h
    | ok s2 =>
      obtain ⟨hfind, hvalid⟩ := (validateRefreshToken_ok_iff db tok now s2).mp hv
      exact ⟨s2, hfind, hvalid⟩

/-- Claim C4: RevokeAllUserSessions equals the row-wise bulk update that
revokes exactly the user's rows (so every other user's row is untouched,
position by position); every resulting row of the user fails validation at
every time; the operation is idempotent, and on an empty match set it
simply returns the table. -/
theorem revokeAllUserSessions_spec (db : SessionDB) (uid : Nat) :
    RevokeAllUserSessions db uid
      = db.map (fun s => if s.userID == uid then { s with isRevoked := true } else s) ∧
    (∀ s, s ∈ RevokeAllUserSessions db uid → s.userID = uid →
      ∀ now, s.IsValid now = false) ∧
    (∀ (i : Nat) (s : Session), db[i]? = some s → s.userID ≠ uid →
      (RevokeAllUserSessions db uid)[i]? = some s) ∧
    RevokeAllUserSessions (RevokeAllUserSessions db uid) uid
      = RevokeAllUserSessions db uid ∧
    RevokeAllUserSessions [] uid = [] := by
  refine ⟨revokeAll_eq_map db uid, ?_, ?_, ?_, rfl⟩
  · intro s hs hsu now
    rw [revokeAll_eq_map] at hs
    obtain ⟨t, ht, hft⟩ := List.mem_map.mp hs
    by_cases h1 : (t.userID == uid) = true
    · rw [if_pos h1] at hft
      rw [← hft]
      simp [Session.IsValid]
    · rw [if_neg h1] at hft
      subst hft
      exact absurd (by simpa using hsu) h1
  · intro i s hi hsu
    rw [revokeAll_eq_map, List.getElem?_map, hi]
    simp only [Option.map_some']
    rw [if_neg (by simpa using hsu)]
  · rw [revokeAll_eq_map, revokeAll_eq_map, List.map_map]
    refine List.map_congr_left ?_
    intro t _
    by_cases h1 : t.userID = uid <;> simp [h1]

/-- Claim C5: for every refresh-token value — one matching no session, one
whose session is already revoked, and regardless of the store's save
outcome — the Logout handler reports the same success response, and running
it twice with the same token reports success both times. -/
theorem logout_idempotent_success (e1 e2 : Option String) (db : SessionDB)
    (tok : String) :
    (Logout e1 db tok).fst
      = { statusCode := 200, status := "success", message := "Logged out successfully" } ∧
    (Logout e2 (Logout e1 db tok).snd tok).fst
      = { statusCode := 200, status := "success", message := "Logged out successfully" } :=
  ⟨logout_fst e1 db tok, logout_fst e2 (Logout e1 db tok).snd tok⟩

/-- Claim C1: when the presented refresh token resolves to a valid session
and its owner exists, rotation with succeeding effects returns a new pair,
and a second rotation with the same token — at any later time, with any
effects and user table — fails as expired-or-revoked, which the
RefreshToken handler answers with 401 Unauthorized. -/
theorem single_use_refresh (users : List User) (db : SessionDB)
    (tok ua ip : String) (now : Time) (s : Session) (u : User) (a r : String)
    (hval : ValidateRefreshToken db tok now = .ok s)
    (huser : findUserById users s.userID = some u) :
    ∃ pair db2,
      RotateRefreshToken (okEffects a r) users db tok ua ip now = (.ok pair, db2) ∧
      ∀ (eff2 : Effects) (users2 : List User) (ua2 ip2 : String) (now2 : Time),
        (RotateRefreshToken eff2 users2 db2 tok ua2 ip2 now2).fst
            = .error .expiredOrRevoked ∧
        refreshHandlerStatusCode (RotateRefreshToken eff2 users2 db2 tok ua2 ip2 now2)
            = 401 := by
  obtain ⟨hfind, hvalid⟩ := (validateRefreshToken_ok_iff db tok now s).mp hval
  refine ⟨_, _, rotate_okEffects_eq users db tok ua ip now s u a r hval huser, ?_⟩
  intro eff2 users2 ua2 ip2 now2
  have hsave := findSessionByToken_saveRevoke tok s db hfind
  have hfind2 : findSessionByToken
      (createSession (saveSession db s.Revoke) (newSession u r ua ip now)) tok
      = some s.Revoke := by
    unfold createSession
    unfold findSessionByToken at hsave ⊢
    exact find?_append_of_some _ _ _ _ hsave
  have hvalidate2 : ValidateRefreshToken
      (createSession (saveSession db s.Revoke) (newSession u r ua ip now)) tok now2
      = .error .expiredOrRevoked := by
    unfold ValidateRefreshToken
    rw [hfind2]
    dsimp only
    rw [if_neg (by simp [revoke_not_valid])]
  have hrot2 : RotateRefreshToken eff2 users2
      (createSession (saveSession db s.Revoke) (newSession u r ua ip now))
      tok ua2 ip2 now2
      = (.error .expiredOrRevoked,
         createSession (saveSession db s.Revoke) (newSession u r ua ip now)) := by
    unfold RotateRefreshToken
    rw [hvalidate2]
  exact ⟨by rw [hrot2], by rw [hrot2]; rfl⟩

/-- Witness for C1: the concrete two-rotation run on the fixture table. -/
theorem single_use_refresh_witness :
    ∃ pair db2,
      RotateRefreshToken (okEffects "signed1" "next-token") [cexUser] [cexSession]
          "old-token" "ua1" "ip1" 100 = (.ok pair, db2) ∧
      ∀ (eff2 : Effects) (users2 : List User) (ua2 ip2 : String) (now2 : Time),
        (RotateRefreshToken eff2 users2 db2 "old-token" ua2 ip2 now2).fst
            = .error .expiredOrRevoked ∧
        refreshHandlerStatusCode (RotateRefreshToken eff2 users2 db2 "old-token" ua2 ip2 now2)
            = 401 :=
  single_use_refresh [cexUser] [cexSession] "old-token" "ua1" "ip1" 100
    cexSession cexUser "signed1" "next-token" (by rfl) (by rfl)

/-- Claim C3, counterexample: rotating the fixture's token at `now = 100`
succeeds, but the used (old) session's row in the resulting table still
carries `lastUsedAt = 10`: rotation never updates the old session's
`lastUsedAt` (only `isRevoked`); `Session.UpdateLastUsed` is dead code.
Only the freshly created row carries `lastUsedAt = now`. -/
theorem rotation_lastUsedAt_cex :
    RotateRefreshToken (okEffects "signed" "new-token") [cexUser] [cexSession]
        "old-token" "ua1" "ip1" 100
      = (.ok { accessToken := "signed", refreshToken := "new-token",
               expiresIn := 900, expiresAt := 1000, tokenType := "Bearer" },
         [{ cexSession with isRevoked := true },
          { id := 2, userID := 7, refreshToken := "new-token", userAgent := "ua1",
            ipAddress := "ip1", expiresAt := 604900, lastUsedAt := 100,
            isRevoked := false }]) ∧
    ({ cexSession with isRevoked := true } : Session).lastUsedAt = 10 ∧
    (10 : Nat) ≠ 100 :=
  ⟨rfl, rfl, by decide⟩

/-- Claim C3, amended: on every successful rotation the old session's row
is rewritten with `isRevoked = true` only — its `lastUsedAt` is left
unchanged — while the one new session row appended by the rotation carries
`lastUsedAt = now`. -/
theorem rotation_lastUsedAt_amended (users : List User) (db : SessionDB)
    (tok ua ip : String) (now : Time) (s : Session) (u : User) (a r : String)
    (hval : ValidateRefreshToken db tok now = .ok s)
    (huser : findUserById users s.userID = some u) :
    ∃ pair,
      RotateRefreshToken (okEffects a r) users db tok ua ip now
        = (.ok pair, saveSession db s.Revoke
            ++ [{ newSession u r ua ip now with
                  id := nextSessionId (saveSession db s.Revoke) }]) ∧
      findSessionByToken (saveSession db s.Revoke) tok = some s.Revoke ∧
      s.Revoke.lastUsedAt = s.lastUsedAt ∧
      ({ newSession u r ua ip now with
         id := nextSessionId (saveSession db s.Revoke) } : Session).lastUsedAt = now := by
  obtain ⟨hfind, _⟩ := (validateRefreshToken_ok_iff db tok now s).mp hval
  exact ⟨_, rotate_okEffects_eq users db tok ua ip now s u a r hval huser,
    findSessionByToken_saveRevoke tok s db hfind, rfl, rfl⟩

/-- Witness for the amended C3 on the fixture table. -/
theorem rotation_lastUsedAt_amended_witness :
    ∃ pair,
      RotateRefreshToken (okEffects "signed" "new-token") [cexUser] [cexSession]
          "old-token" "ua1" "ip1" 100
        = (.ok pair, saveSession [cexSession] cexSession.Revoke
            ++ [{ newSession cexUser "new-token" "ua1" "ip1" 100 with
                  id := nextSessionId (saveSession [cexSession] cexSession.Revoke) }]) ∧
      findSessionByToken (saveSession [cexSession] cexSession.Revoke) "old-token"
          = some cexSession.Revoke ∧
      cexSession.Revoke.lastUsedAt = cexSession.lastUsedAt ∧
      ({ newSession cexUser "new-token" "ua1" "ip1" 100 with
         id := nextSessionId (saveSession [cexSession] cexSession.Revoke) } : Session).lastUsedAt
          = 100 :=
  rotation_lastUsedAt_amended [cexUser] [cexSession] "old-token" "ua1" "ip1" 100
    cexSession cexUser "signed" "new-token" (by rfl) (by rfl)

/-- Claim C8: with a valid token and existing owner, if the revocation
write errors then rotation stops with RevocationFailed wrapping the cause
and the table is untouched — no new tokens are issued, whatever the mint
steps would have returned; and when the revocation write succeeds, the
table rotation leaves behind is exactly the one GenerateTokenPair produces
from the table already holding the revoked old row, which the token lookup
then finds revoked. -/
theorem revoke_before_reissue (eff : Effects) (users : List User) (db : SessionDB)
    (tok ua ip : String) (now : Time) (s : Session) (u : User)
    (hval : ValidateRefreshToken db tok now = .ok s)
    (huser : findUserById users s.userID = some u) :
    (∀ e, eff.saveErr = some e →
      RotateRefreshToken eff users db tok ua ip now
        = (.error (.revocationFailed e), db)) ∧
    (eff.saveErr = none →
      (RotateRefreshToken eff users db tok ua ip now).snd
          = (GenerateTokenPair eff (saveSession db s.Revoke) u ua ip now).snd ∧
      findSessionByToken (saveSession db s.Revoke) tok = some s.Revoke ∧
      s.Revoke.isRevoked = true) := by
  obtain ⟨hfind, _⟩ := (validateRefreshToken_ok_iff db tok now s).mp hval
  constructor
  · intro e he
    unfold RotateRefreshToken
    rw [hval]
    dsimp only
    rw [huser]
    dsimp only
    rw [he]
  · intro he
    refine ⟨?_, findSessionByToken_saveRevoke tok s db hfind, rfl⟩
    unfold RotateRefreshToken
    rw [hval]
    dsimp only
    rw [huser]
    dsimp only
    rw [he]
    dsimp only
    cases hgen : GenerateTokenPair eff (saveSession db s.Revoke) u ua ip now with
    | mk res db2 => cases res <;> rfl

/-- Witness for C8: a failing revocation write on the fixture table stops
the rotation with RevocationFailed and leaves the table unchanged. -/
theorem revoke_before_reissue_witness :
    RotateRefreshToken badSaveEffects [cexUser] [cexSession] "old-token" "ua1" "ip1" 100
      = (.error (.revocationFailed "disk full"), [cexSession]) :=
  (revoke_before_reissue badSaveEffects [cexUser] [cexSession] "old-token" "ua1" "ip1" 100
      cexSession cexUser (by rfl) (by rfl)).1 "disk full" rfl

/-- Claim C7: GenerateTokenPair fails with an error wrapping the cause when
the access-token mint, the refresh-token mint or the session persistence
errors, and in every such case it returns no pair and leaves the session
table exactly as it was (no partial session); when all three succeed it
appends exactly one new session row with `expiresAt = now +
RefreshTokenDuration` (7 days), `lastUsedAt = now` and `isRevoked = false`,
and RefreshTokenDuration is indeed 7 days of seconds. -/
theorem generateTokenPair_spec (eff : Effects) (db : SessionDB) (u : User)
    (ua ip : String) (now : Time) :
    (∀ e, eff.signedAccessToken = .error e →
      GenerateTokenPair eff db u ua ip now = (.error (.accessTokenFailed e), db)) ∧
    (∀ a e, eff.signedAccessToken = .ok a → eff.randomRefreshToken = .error e →
      GenerateTokenPair eff db u ua ip now = (.error (.refreshTokenFailed e), db)) ∧
    (∀ a r e, eff.signedAccessToken = .ok a → eff.randomRefreshToken = .ok r →
      eff.createErr = some e →
      GenerateTokenPair eff db u ua ip now = (.error (.storeFailed e), db)) ∧
    (∀ a r, eff.signedAccessToken = .ok a → eff.randomRefreshToken = .ok r →
      eff.createErr = none →
      GenerateTokenPair eff db u ua ip now
        = (.ok { accessToken := a, refreshToken := r,
                 expiresIn := AccessTokenDuration,
                 expiresAt := now + AccessTokenDuration, tokenType := "Bearer" },
           db ++ [{ id := nextSessionId db, userID := u.id, refreshToken := r,
                    userAgent := ua, ipAddress := ip,
                    expiresAt := now + RefreshTokenDuration, lastUsedAt := now,
                    isRevoked := false }])) ∧
    RefreshTokenDuration = 7 * 24 * 60 * 60 := by
  refine ⟨?_, ?_, ?_, ?_, rfl⟩
  · intro e he
    unfold GenerateTokenPair GenerateAccessToken
    rw [he]
  · intro a e ha he
    unfold GenerateTokenPair GenerateAccessToken
    rw [ha]
    dsimp only
    rw [he]
  · intro a r e ha hr he
    unfold GenerateTokenPair GenerateAccessToken
    rw [ha]
    dsimp only
    rw [hr]
    dsimp only
    rw [he]
  · intro a r ha hr hc
    unfold GenerateTokenPair GenerateAccessToken
    rw [ha]
    dsimp only
    rw [hr]
    dsimp only
    rw [hc]
    dsimp only
    rfl

/-- Claim C9: every success response of the Login handler carries
`expires_in = 900` (seconds) and `token_type = "Bearer"` with status code
200; the fixed access-token lifetime is 15 minutes; and the minted access
token's `exp` claim is its `iat` claim (the issue time `now`) plus that
lifetime. -/
theorem login_token_pair_shape (chk : String → String → Bool)
    (isEmailAddr : String → Bool) (eff : Effects) (users : List User)
    (db : SessionDB) (identity pass ua ip : String) (now : Time) (u : User) :
    (∀ code msg data,
      (Login chk isEmailAddr eff users db identity pass ua ip now).response
          = .successResp code msg data →
      data.expires_in = 900 ∧ data.token_type = "Bearer" ∧ code = 200) ∧
    AccessTokenDuration = 15 * 60 ∧
    (∀ a, eff.signedAccessToken = .ok a →
      GenerateAccessToken eff u now
        = .ok (a, { user_id := u.id, username := u.username, email := u.email,
                    exp := now + AccessTokenDuration, iat := now,
                    type := "access" }, now + AccessTokenDuration)) := by
  refine ⟨?_, rfl, ?_⟩
  · intro code msg data h
    unfold Login at h
    cases hl : lookupLoginUser users isEmailAddr identity with
    | none => rw [hl] at h; simp at h
    | some u2 =>
      rw [hl] at h
      dsimp only at h
      by_cases hcp : chk pass u2.password = true
      · rw [if_pos hcp] at h
        cases hg : GenerateTokenPair eff db u2 ua ip now with
        | mk res db1 =>
          rw [hg] at h
          cases res with
          | error e => simp at h
          | ok pair =>
            simp only [LoginResponse.successResp.injEq] at h
            obtain ⟨hcode, _, hdata⟩ := h
            obtain ⟨hei, htt⟩ := tokenPair_ok_shape eff db u2 ua ip now pair db1 hg
            subst hdata
            exact ⟨hei, htt, hcode.symm⟩
      · rw [if_neg hcp] at h
        simp at h
  · intro a ha
    unfold GenerateAccessToken
    rw [ha]

/-- Claim C6: a login whose identity matches no user and a login with a
wrong password for an existing user produce identical responses — the same
401 status and byte-identical "Invalid credentials" error body — both leave
the session table untouched, and in the no-user run the bcrypt comparison
still executes, against the dummy empty hash. -/
theorem login_no_enumeration (chk : String → String → Bool)
    (isEmailAddr : String → Bool) (eff : Effects) (users : List User)
    (db : SessionDB) (id1 pass1 id2 pass2 ua ip : String) (now : Time) (u : User)
    (h1 : lookupLoginUser users isEmailAddr id1 = none)
    (h2 : lookupLoginUser users isEmailAddr id2 = some u)
    (h3 : chk pass2 u.password = false) :
    (Login chk isEmailAddr eff users db id1 pass1 ua ip now).response
        = (Login chk isEmailAddr eff users db id2 pass2 ua ip now).response ∧
    (Login chk isEmailAddr eff users db id1 pass1 ua ip now).response
        = .errorResp 401 { status := "error", message := "Invalid credentials",
                           errorsDetail := none } ∧
    (Login chk isEmailAddr eff users db id1 pass1 ua ip now).db = db ∧
    (Login chk isEmailAddr eff users db id2 pass2 ua ip now).db = db ∧
    (pass1, "") ∈ (Login chk isEmailAddr eff users db id1 pass1 ua ip now).hashChecks := by
  have e1 : Login chk isEmailAddr eff users db id1 pass1 ua ip now
      = { response := .errorResp 401 { status := "error",
                                       message := "Invalid credentials",
                                       errorsDetail := none },
          db := db, hashChecks := [(pass1, "")] } := by
    unfold Login
    rw [h1]
  have e2 : Login chk isEmailAddr eff users db id2 pass2 ua ip now
      = { response := .errorResp 401 { status := "error",
                                       message := "Invalid credentials",
                                       errorsDetail := none },
          db := db, hashChecks := [(pass2, u.password)] } := by
    unfold Login
    rw [h2]
    dsimp only
    rw [if_neg (by simp [h3])]
  rw [e1, e2]
  exact ⟨rfl, rfl, rfl, rfl, by simp⟩

/-- Witness for C6: the "ghost" identity matches nobody, "alice" exists but
the comparison rejects the password; the two concrete responses coincide
and the dummy hash check ran. -/
theorem login_no_enumeration_witness :
    (Login (fun _ _ => false) (fun _ => false) (okEffects "s" "r") [aliceUser] []
        "ghost" "pw1" "ua" "ip" 0).response
      = (Login (fun _ _ => false) (fun _ => false) (okEffects "s" "r") [aliceUser] []
        "alice" "pw2" "ua" "ip" 0).response ∧
    (Login (fun _ _ => false) (fun _ => false) (okEffects "s" "r") [aliceUser] []
        "ghost" "pw1" "ua" "ip" 0).response
      = .errorResp 401 { status := "error", message := "Invalid credentials",
                         errorsDetail := none } ∧
    (Login (fun _ _ => false) (fun _ => false) (okEffects "s" "r") [aliceUser] []
        "ghost" "pw1" "ua" "ip" 0).db = [] ∧
    (Login (fun _ _ => false) (fun _ => false) (okEffects "s" "r") [aliceUser] []
        "alice" "pw2" "ua" "ip" 0).db = [] ∧
    ("pw1", "") ∈ (Login (fun _ _ => false) (fun _ => false) (okEffects "s" "r")
        [aliceUser] [] "ghost" "pw1" "ua" "ip" 0).hashChecks :=
  login_no_enumeration (fun _ _ => false) (fun _ => false) (okEffects "s" "r")
    [aliceUser] [] "ghost" "pw1" "alice" "pw2" "ua" "ip" 0 aliceUser
    (by decide) (by decide) rfl

/-- Claim C10: GetUserIDFromToken never returns a non-nil error — every
normal return pairs the user id with `nil`; when the context carries no
decoded token, or the `user_id` claim is missing or not numeric, the
unchecked type assertions crash instead of returning; consequently the
LogoutAll caller's `Invalid token` error branch is unreachable. -/
theorem getUserIDFromToken_never_errors (c : Ctx) (db : SessionDB) :
    (∀ n e, GetUserIDFromToken c = .ok (n, e) → e = none) ∧
    (c.localsUser = none → GetUserIDFromToken c = .error .typeAssertionFailed) ∧
    (∀ t, c.localsUser = some t → lookupClaim t "user_id" = none →
      GetUserIDFromToken c = .error .typeAssertionFailed) ∧
    (∀ t v, c.localsUser = some t → lookupClaim t "user_id" = some (.str v) →
      GetUserIDFromToken c = .error .typeAssertionFailed) ∧
    (∀ r db2, LogoutAll c db = .ok (r, db2) → r ≠ .invalidTokenError) := by
  refine ⟨?_, ?_, ?_, ?_, ?_⟩
  · intro n e h
    unfold GetUserIDFromToken at h
    cases hl : c.localsUser with
    | none => rw [hl] at h; simp at h
    | some t =>
      rw [hl] at h
      dsimp only at h
      cases hc : lookupClaim t "user_id" with
      | none => rw [hc] at h; simp at h
      | some v =>
        rw [hc] at h
        cases v with
        | num m => simp only [Except.ok.injEq, Prod.mk.injEq] at h; exact h.2.symm
        | str s2 => simp at h
  · intro hl
    unfold GetUserIDFromToken
    rw [hl]
  · intro t hl hc
    unfold GetUserIDFromToken
    rw [hl]
    dsimp only
    rw [hc]
  · intro t v hl hc
    unfold GetUserIDFromToken
    rw [hl]
    dsimp only
    rw [hc]
  · intro r db2 h
    unfold LogoutAll at h
    cases hg : GetUserIDFromToken c with
    | error p => rw [hg] at h; simp at h
    | ok pr =>
      have hnil : pr.2 = none := by
        have := hg
        unfold GetUserIDFromToken at this
        cases hl : c.localsUser with
        | none => rw [hl] at this; simp at this
        | some t =>
          rw [hl] at this
          dsimp only at this
          cases hc : lookupClaim t "user_id" with
          | none => rw [hc] at this; simp at this
          | some v =>
            rw [hc] at this
            cases v with
            | num m =>
              simp only [Except.ok.injEq] at this
              rw [← this]
            | str s2 => simp at this
      rw [hg] at h
      cases hpr : pr with
      | mk uid err =>
        rw [hpr] at hnil h
        dsimp only at hnil
        subst hnil
        simp only [Except.ok.injEq, Prod.mk.injEq] at h
        rw [← h.1]
        intro hcontra
        exact absurd hcontra (by simp)
